import Mathlib

/-!
Shallow embedding of `src/app.py` (FHIR Server Uploader).

The program is a sequential batch client.  Network effects and file reads
are modelled by explicit oracle values: every HTTP call made by the client
is represented by the `HttpResult` the Python `requests` session would
deliver for it (either a raised exception, after the retry policy is
exhausted, or a final response with its status code, raw text body and the
outcome of `response.json()`), and every file by the outcome of
`open` + `json.load`.  With those oracles fixed, each Python function
becomes a total Lean function, and a `try/except` block becomes a match on
the exception arm of the oracle.
-/

/-- JSON values as produced by `json.load` / `response.json()`.  Objects are
association lists with distinct keys (Python dicts).  Numbers are modelled
by integers; no claim depends on fractional values. -/
inductive Json where
  | null
  | bool (b : Bool)
  | num (n : Int)
  | str (s : String)
  | arr (elems : List Json)
  | obj (fields : List (String × Json))

/-- Dictionary lookup, `d.get(key)` / `d[key]` on a parsed JSON object. -/
def lookupField : List (String × Json) → String → Option Json
  | [], _ => none
  | (k, v) :: rest, key => if k = key then some v else lookupField rest key

/-- Python truthiness of a parsed JSON value (`if result:` in
`upload_bundle_file`, line 146). -/
def Json.truthy : Json → Bool
  | .null => false
  | .bool b => b
  | .num n => n ≠ 0
  | .str s => s ≠ ""
  | .arr elems => !elems.isEmpty
  | .obj fields => !fields.isEmpty

/-- Whether a parsed JSON value is a Python dict, the only parsed value
that supports `.get`. -/
def Json.isObj : Json → Bool
  | .obj _ => true
  | _ => false

/-- The `stats` dictionary built in `upload_directory` (lines 172-179). -/
structure Stats where
  total : Nat
  successful : Nat
  failed : Nat
  patients : Nat
  observations : Nat
  medications : Nat
deriving DecidableEq, Repr

/-- Outcome of one HTTP call as delivered by the `requests` session: either
an exception (connection failure, timeout, retries exhausted, ...) or a
final response carrying the status code, the raw text body, and the result
of parsing that body with `response.json()`. -/
inductive HttpResult where
  | exc (msg : String)
  | response (status : Nat) (body : String) (parsed : Except String Json)

/-- One file of the input directory: its name, the outcome of
`open(path)` + `json.load(f)` (an exception message or the parsed
document), and the server behaviour for the POST that uploads it.  The two
reads performed by `upload_directory` (counting, then uploading) see the
same file, hence share one `read` outcome. -/
structure FileCase where
  name : String
  read : Except String Json
  resp : HttpResult

/-- An HTTP request issued by the client (query strings and headers are not
tracked; only that the call was attempted, and at which URL). -/
inductive Request where
  | get (url : String)
  | post (url : String)

/-- The three credential environment variables read by `main`
(lines 266-268); `os.getenv` yields `none` when a variable is unset. -/
structure Env where
  hostname : Option String
  clientId : Option String
  clientSecret : Option String

/-- External behaviour visible to `main`: the metadata call outcome, the
existence of the input directory, its contents, and the verification
search outcome. -/
structure World where
  conn : HttpResult
  dirExists : Bool
  dir : List FileCase
  searchResp : HttpResult

/-- Lexicographic comparison of strings by Unicode code point, the order
`sorted` uses on same-directory `Path` values (line 166). -/
def lexLe : List Char → List Char → Bool
  | [], _ => true
  | _ :: _, [] => false
  | a :: as, b :: bs =>
    if a.toNat < b.toNat then true
    else if b.toNat < a.toNat then false
    else lexLe as bs

/-- Name filter of `directory.glob("*.json")` (line 166): the file name
ends in `.json` (the star also matches the empty prefix). -/
def isJsonFile (name : String) : Bool :=
  List.isSuffixOf ".json".data name.data

/-- The `base_url` computed in `__init__` (line 36). -/
def base_url (hostname : String) : String :=
  "https://" ++ hostname ++ "/fhir/R4"

/-- `test_connection` (lines 74-97).  At status 200 the success message is
printed, then `response.json()` runs inside the `try`; if that parse
raises, the `except` arm returns `False`.  The server line (line 87) then
evaluates `metadata.get("software", {}).get("name", "Unknown")`: when the
parsed body is not a dict, or when its `software` value exists and is not
a dict, `.get` raises `AttributeError` and the `except` arm returns
`False` (a missing `software` key falls back to the empty dict, and
`.get` with a default never raises on a dict, so the version line at
line 88 cannot raise once line 87 passed).  Any other status returns
`False`, and any session exception returns `False`. -/
def test_connection (r : HttpResult) : Bool :=
  match r with
  | .exc _ => false
  | .response status _ parsed =>
    if status = 200 then
      match parsed with
      | .ok metadata =>
        match metadata with
        | .obj fields =>
          match lookupField fields "software" with
          | none => true
          | some (.obj _) => true
          | some _ => false
        | _ => false
      | .error _ => false
    else false

/-- `upload_bundle` (lines 99-127): the returned value paired with the
console lines the call prints.  Status 200 or 201 returns
`response.json()`; a parse failure there is caught by the `except` arm.
Any other status prints the status code and the body truncated to 500
characters and returns `None`; an exception prints its message and
returns `None`. -/
def upload_bundle (r : HttpResult) : Option Json × List String :=
  match r with
  | .exc msg => (none, ["  Upload error: " ++ msg])
  | .response status body parsed =>
    if status = 200 ∨ status = 201 then
      match parsed with
      | .ok j => (some j, [])
      | .error e => (none, ["  Upload error: " ++ e])
    else
      (none, ["  Upload failed: " ++ toString status,
              "  Response: " ++ body.take 500])

/-- `upload_bundle_file` (lines 129-153).  A read or parse failure is
caught and yields `False`; otherwise the result of `upload_bundle` is
tested for Python truthiness (`if result:`). -/
def upload_bundle_file (read : Except String Json) (r : HttpResult) : Bool :=
  match read with
  | .error _ => false
  | .ok _ =>
    match (upload_bundle r).fst with
    | some j => j.truthy
    | none => false

/-- The resource-counting loop body of `upload_directory` (lines 189-196),
threaded through the mutable `stats`.  The whole loop runs inside one
`try`, so the first entry that raises (`entry["resource"]` on a non-dict
entry or with the key missing, or `.get` on a non-dict resource) aborts
counting for the rest of the file, keeping the increments made so far. -/
def countEntries : List Json → Stats → Stats
  | [], s => s
  | e :: rest, s =>
    match e with
    | .obj ef =>
      match lookupField ef "resource" with
      | some (.obj rf) =>
        match lookupField rf "resourceType" with
        | some (.str "Patient") =>
          countEntries rest
            ⟨s.total, s.successful, s.failed, s.patients + 1,
             s.observations, s.medications⟩
        | some (.str "Observation") =>
          countEntries rest
            ⟨s.total, s.successful, s.failed, s.patients,
             s.observations + 1, s.medications⟩
        | some (.str "MedicationStatement") =>
          countEntries rest
            ⟨s.total, s.successful, s.failed, s.patients,
             s.observations, s.medications + 1⟩
        | _ => countEntries rest s
      | some _ => s
      | none => s
    | _ => s

/-- The per-file counting block of `upload_directory` (lines 184-198): a
read or parse failure, a non-dict document, or a non-list `entry` value
leaves the counters unchanged (the `except: pass` arm; iterating a
non-list either raises at the first element or yields elements on which
`entry["resource"]` raises, so no counter is ever incremented). -/
def countBundle (read : Except String Json) (s : Stats) : Stats :=
  match read with
  | .error _ => s
  | .ok b =>
    match b with
    | .obj fields =>
      match lookupField fields "entry" with
      | some (.arr es) => countEntries es s
      | some _ => s
      | none => s
    | _ => s

/-- One iteration of the file loop of `upload_directory` (lines 181-215):
count the resources of the file, upload it, and increment exactly one of
`successful` / `failed`. -/
def processFile (s : Stats) (f : FileCase) : Stats :=
  let s1 := countBundle f.read s
  if upload_bundle_file f.read f.resp then
    ⟨s1.total, s1.successful + 1, s1.failed, s1.patients,
     s1.observations, s1.medications⟩
  else
    ⟨s1.total, s1.successful, s1.failed + 1, s1.patients,
     s1.observations, s1.medications⟩

/-- `nameLe f g` orders files by name, code point wise. -/
def nameLe (f g : FileCase) : Prop :=
  lexLe f.name.data g.name.data = true

instance : DecidableRel nameLe :=
  fun f g => instDecidableEqBool (lexLe f.name.data g.name.data) true

/-- `sorted(list(directory.glob("*.json")))` (line 166): the `.json` files
of the directory in lexicographic name order.  Python applies a stable
sort to the OS enumeration order; since stable sorts with one comparison
agree, insertion sort models it exactly. -/
def scan (dir : List FileCase) : List FileCase :=
  List.insertionSort nameLe (dir.filter (fun f => isJsonFile f.name))

/-- The success percentage of the final summary, line 221
(`stats["successful"]/stats["total"]*100`, rendered with one decimal,
hence per mille here): a `ZeroDivisionError` when `total` is zero. -/
def successPerMille (s : Stats) : Except String Nat :=
  if s.total = 0 then Except.error "ZeroDivisionError"
  else Except.ok (s.successful * 1000 / s.total)

/-- `upload_directory` (lines 155-228): scan, fold the file loop over the
scanned list, then print the summary.  The summary divides by
`stats["total"]`; the raised `ZeroDivisionError` is modelled by the
`Except.error` arm, in which case no statistics are returned. -/
def upload_directory (dir : List FileCase) : Except String Stats :=
  let files := scan dir
  let init : Stats := ⟨files.length, 0, 0, 0, 0, 0⟩
  let final := files.foldl processFile init
  match successPerMille final with
  | Except.error e => Except.error e
  | Except.ok _ => Except.ok final

/-- `search_patients` (lines 230-257): status 200 returns
`response.json()` (a parse failure there is caught and yields `None`);
any other status or any exception yields `None`.  The query parameters
only affect the request, never the classification of the outcome. -/
def search_patients (_params : List (String × String)) (r : HttpResult) :
    Option Json :=
  match r with
  | .exc _ => none
  | .response status _ parsed =>
    if status = 200 then
      match parsed with
      | .ok j => some j
      | .error _ => none
    else none

/-- HTTP requests attempted while processing one file (lines 140-144): the
POST is attempted exactly when `json.load` succeeded. -/
def fileRequests (h : String) (f : FileCase) : List Request :=
  match f.read with
  | .ok _ => [Request.post (base_url h)]
  | .error _ => []

/-- `main` (lines 260-314), projected onto the HTTP requests it attempts.
Missing or empty credential variables fail the `not all([...])` truthiness
check and return before the uploader is built; a failed connection test or
a missing directory return after the single metadata GET; otherwise the
batch POSTs run, and the verification search runs unless the batch raised
(the empty-directory `ZeroDivisionError` propagates out of
`upload_directory`). -/
def main_run (env : Env) (w : World) : List Request :=
  match env.hostname, env.clientId, env.clientSecret with
  | some h, some cid, some cs =>
    if h = "" ∨ cid = "" ∨ cs = "" then []
    else
      let connReqs := [Request.get (base_url h ++ "/metadata")]
      if test_connection w.conn = false then connReqs
      else if w.dirExists = false then connReqs
      else
        let upReqs := ((scan w.dir).map (fileRequests h)).flatten
        match upload_directory w.dir with
        | Except.error _ => connReqs ++ upReqs
        | Except.ok _ =>
          connReqs ++ upReqs ++ [Request.get (base_url h ++ "/Patient")]
  | _, _, _ => []

/-- Spec-side reading of the entry list of a file: the `entry` list of the
parsed document, empty when the file does not parse to an object with a
list under `entry`. -/
def entriesOf (read : Except String Json) : List Json :=
  match read with
  | .ok (.obj fields) =>
    match lookupField fields "entry" with
    | some (.arr es) => es
    | _ => []
  | _ => []

/-- An entry is well formed when it is an object whose `resource` key holds
an object; exactly these entries survive the counting loop without
raising. -/
def wellFormedEntry (e : Json) : Bool :=
  match e with
  | .obj ef =>
    match lookupField ef "resource" with
    | some (.obj _) => true
    | _ => false
  | _ => false

/-- An entry whose resource carries the given `resourceType`. -/
def entryHasType (t : String) (e : Json) : Bool :=
  match e with
  | .obj ef =>
    match lookupField ef "resource" with
    | some (.obj rf) =>
      match lookupField rf "resourceType" with
      | some (.str u) => u = t
      | _ => false
    | _ => false
  | _ => false

/-- Modelled from the spec: the count of entries with matching
`resourceType` across all files of the batch, each malformed entry skipped
individually.  This follows the spec sentence for the resource counters;
the code is compared against it. -/
def specTypeCount (t : String) (dir : List FileCase) : Nat :=
  ((scan dir).map (fun f => (entriesOf f.read).countP (entryHasType t))).sum

/-- What the counting loop of the code actually tallies per file: matching
entries of the longest well-formed prefix of the entry list. -/
def prefixTypeCount (t : String) (read : Except String Json) : Nat :=
  ((entriesOf read).takeWhile wellFormedEntry).countP (entryHasType t)

/-- The name order seen on strings, used to state sortedness of the scan. -/
def strLe (a b : String) : Prop := lexLe a.data b.data = true

/-- Increment of the counting loop for one well-formed entry. -/
def bump (e : Json) (s : Stats) : Stats :=
  ⟨s.total, s.successful, s.failed,
   s.patients + (if entryHasType "Patient" e then 1 else 0),
   s.observations + (if entryHasType "Observation" e then 1 else 0),
   s.medications + (if entryHasType "MedicationStatement" e then 1 else 0)⟩

/-- Whether the upload path classifies a file as successful. -/
def fileSucceeds (f : FileCase) : Bool :=
  upload_bundle_file f.read f.resp

/-- The statistics accumulated by the batch loop. -/
def batchStats (dir : List FileCase) : Stats :=
  (scan dir).foldl processFile ⟨(scan dir).length, 0, 0, 0, 0, 0⟩

/-! ### Concrete inputs used to instantiate the theorems -/

/-- A counting entry without a `resource` key: `entry["resource"]` raises
`KeyError` on it. -/
def malformedEntry : Json := Json.obj []

/-- A well-formed entry whose resource is a Patient. -/
def patientEntry : Json :=
  Json.obj [("resource", Json.obj [("resourceType", Json.str "Patient")])]

/-- A directory with a single file whose entry list is a malformed entry
followed by a Patient entry; its upload succeeds with a parsed body. -/
def exDir : List FileCase :=
  [⟨"bundle.json",
    Except.ok (Json.obj [("entry", Json.arr [malformedEntry, patientEntry])]),
    HttpResult.response 200 "resp"
      (Except.ok (Json.obj [("resourceType", Json.str "Bundle")]))⟩]

/-- A world whose server is unreachable and whose directory is missing. -/
def w0 : World := ⟨HttpResult.exc "down", false, [], HttpResult.exc "down"⟩

/-- A file whose upload succeeds. -/
def wFileOk : FileCase :=
  ⟨"a.json", Except.ok (Json.obj []),
   HttpResult.response 200 "resp"
     (Except.ok (Json.obj [("resourceType", Json.str "Bundle")]))⟩

/-- A file whose content is not valid JSON. -/
def wFileBad : FileCase :=
  ⟨"b.json", Except.error "Expecting value", HttpResult.exc "unused"⟩

/-- Two unreadable files used to instantiate the scan-order theorem. -/
def wf1 : FileCase := ⟨"b.json", Except.error "x", HttpResult.exc "e"⟩

def wf2 : FileCase := ⟨"a.json", Except.error "y", HttpResult.exc "e"⟩

/-- A file with invalid JSON content, for the per-file failure theorem. -/
def wf3 : FileCase :=
  ⟨"bad.json", Except.error "Expecting value", HttpResult.exc "unused"⟩

/-! ### Order properties of the name comparison -/

theorem lexLe_total : ∀ a b : List Char, lexLe a b = true ∨ lexLe b a = true
  | [], _ => Or.inl rfl
  | _ :: _, [] => Or.inr rfl
  | a :: as, b :: bs => by
    by_cases h1 : a.toNat < b.toNat
    · exact Or.inl (by simp [lexLe, h1])
    · by_cases h2 : b.toNat < a.toNat
      · exact Or.inr (by simp [lexLe, h2, h1])
      · rcases lexLe_total as bs with h | h
        · exact Or.inl (by simp [lexLe, h1, h2, h])
        · exact Or.inr (by simp [lexLe, h1, h2, h])

theorem lexLe_trans : ∀ a b c : List Char,
    lexLe a b = true → lexLe b c = true → lexLe a c = true
  | [], _, _, _, _ => rfl
  | _ :: _, [], _, h1, _ => by simp [lexLe] at h1
  | _ :: _, _ :: _, [], _, h2 => by simp [lexLe] at h2
  | a :: as, b :: bs, c :: cs, h1, h2 => by
    by_cases hab : a.toNat < b.toNat
    · by_cases hbc : b.toNat < c.toNat
      · simp [lexLe, Nat.lt_trans hab hbc]
      · by_cases hcb : c.toNat < b.toNat
        · simp [lexLe, hbc, hcb] at h2
        · have hac : a.toNat < c.toNat := by omega
          simp [lexLe, hac]
    · by_cases hba : b.toNat < a.toNat
      · simp [lexLe, hab, hba] at h1
      · by_cases hbc : b.toNat < c.toNat
        · have hac : a.toNat < c.toNat := by omega
          simp [lexLe, hac]
        · by_cases hcb : c.toNat < b.toNat
          · simp [lexLe, hbc, hcb] at h2
          · have h1t : lexLe as bs = true := by simpa [lexLe, hab, hba] using h1
            have h2t : lexLe bs cs = true := by simpa [lexLe, hbc, hcb] using h2
            have hac : ¬ a.toNat < c.toNat := by omega
            have hca : ¬ c.toNat < a.toNat := by omega
            simp [lexLe, hac, hca, lexLe_trans as bs cs h1t h2t]

theorem lexLe_antisymm : ∀ a b : List Char,
    lexLe a b = true → lexLe b a = true → a = b
  | [], [], _, _ => rfl
  | [], _ :: _, _, h2 => by simp [lexLe] at h2
  | _ :: _, [], h1, _ => by simp [lexLe] at h1
  | a :: as, b :: bs, h1, h2 => by
    by_cases hab : a.toNat < b.toNat
    · have hba : ¬ b.toNat < a.toNat := by omega
      simp [lexLe, hab, hba] at h2
    · by_cases hba : b.toNat < a.toNat
      · simp [lexLe, hab, hba] at h1
      · have h1t : lexLe as bs = true := by simpa [lexLe, hab, hba] using h1
        have h2t : lexLe bs as = true := by simpa [lexLe, hab, hba] using h2
        have hn : a.toNat = b.toNat := by omega
        have hc : a = b := Char.eq_of_val_eq (UInt32.ext hn)
        rw [hc, lexLe_antisymm as bs h1t h2t]

/-! ### Counting lemmas -/

theorem countEntries_cons_wf (e : Json) (rest : List Json) (s : Stats)
    (hwf : wellFormedEntry e = true) :
    countEntries (e :: rest) s = countEntries rest (bump e s) := by
  match e with
  | Json.obj ef =>
    cases hres : lookupField ef "resource" with
    | none => simp [wellFormedEntry, hres] at hwf
    | some r =>
      match r with
      | Json.null | Json.bool _ | Json.num _ | Json.str _ | Json.arr _ =>
        simp [wellFormedEntry, hres] at hwf
      | Json.obj rf =>
        cases hrt : lookupField rf "resourceType" with
        | none =>
          simp [countEntries, hres, hrt, bump, entryHasType]
        | some t =>
          match t with
          | Json.null | Json.bool _ | Json.num _ | Json.arr _ | Json.obj _ =>
            simp [countEntries, hres, hrt, bump, entryHasType]
          | Json.str u =>
            by_cases hu1 : u = "Patient"
            · subst hu1
              simp [countEntries, hres, hrt, bump, entryHasType]
            · by_cases hu2 : u = "Observation"
              · subst hu2
                simp [countEntries, hres, hrt, bump, entryHasType]
              · by_cases hu3 : u = "MedicationStatement"
                · subst hu3
                  simp [countEntries, hres, hrt, bump, entryHasType]
                · simp [countEntries, hres, hrt, bump, entryHasType,
                        hu1, hu2, hu3]
  | Json.null | Json.bool _ | Json.num _ | Json.str _ | Json.arr _ =>
    simp [wellFormedEntry] at hwf

theorem countEntries_cons_nwf (e : Json) (rest : List Json) (s : Stats)
    (hwf : wellFormedEntry e = false) :
    countEntries (e :: rest) s = s := by
  match e with
  | Json.obj ef =>
    cases hres : lookupField ef "resource" with
    | none => simp [countEntries, hres]
    | some r =>
      match r with
      | Json.null | Json.bool _ | Json.num _ | Json.str _ | Json.arr _ =>
        simp [countEntries, hres]
      | Json.obj rf => simp [wellFormedEntry, hres] at hwf
  | Json.null | Json.bool _ | Json.num _ | Json.str _ | Json.arr _ =>
    simp [countEntries]

theorem countEntries_eq : ∀ (es : List Json) (s : Stats),
    countEntries es s =
      ⟨s.total, s.successful, s.failed,
       s.patients +
         ((es.takeWhile wellFormedEntry).countP (entryHasType "Patient")),
       s.observations +
         ((es.takeWhile wellFormedEntry).countP (entryHasType "Observation")),
       s.medications +
         ((es.takeWhile wellFormedEntry).countP
            (entryHasType "MedicationStatement"))⟩
  | [], s => by simp [countEntries]
  | e :: rest, s => by
    by_cases hwf : wellFormedEntry e
    · rw [countEntries_cons_wf e rest s hwf, countEntries_eq rest]
      by_cases hp : entryHasType "Patient" e <;>
        by_cases ho : entryHasType "Observation" e <;>
          by_cases hm : entryHasType "MedicationStatement" e <;>
            simp [bump, hwf, hp, ho, hm, List.takeWhile_cons, List.countP_cons] <;>
              omega
    · rw [countEntries_cons_nwf e rest s (by simpa using hwf)]
      simp [List.takeWhile_cons, hwf]

theorem countBundle_eq (read : Except String Json) (s : Stats) :
    countBundle read s = countEntries (entriesOf read) s := by
  match read with
  | Except.error e => simp [countBundle, entriesOf, countEntries]
  | Except.ok b =>
    match b with
    | Json.null | Json.bool _ | Json.num _ | Json.str _ | Json.arr _ =>
      simp [countBundle, entriesOf, countEntries]
    | Json.obj fields =>
      cases h : lookupField fields "entry" with
      | none => simp [countBundle, entriesOf, countEntries, h]
      | some v => cases v <;> simp [countBundle, entriesOf, countEntries, h]

/-! ### Batch fold lemmas -/

theorem processFile_eq (s : Stats) (f : FileCase) :
    processFile s f =
      ⟨s.total,
       s.successful + (if fileSucceeds f then 1 else 0),
       s.failed + (if fileSucceeds f then 0 else 1),
       s.patients + prefixTypeCount "Patient" f.read,
       s.observations + prefixTypeCount "Observation" f.read,
       s.medications + prefixTypeCount "MedicationStatement" f.read⟩ := by
  unfold processFile
  rw [countBundle_eq, countEntries_eq]
  by_cases h : upload_bundle_file f.read f.resp <;>
    simp [h, fileSucceeds, prefixTypeCount]

theorem foldl_processFile_eq : ∀ (files : List FileCase) (s : Stats),
    files.foldl processFile s =
      ⟨s.total,
       s.successful + files.countP fileSucceeds,
       s.failed + files.countP (fun f => !fileSucceeds f),
       s.patients +
         (files.map (fun f => prefixTypeCount "Patient" f.read)).sum,
       s.observations +
         (files.map (fun f => prefixTypeCount "Observation" f.read)).sum,
       s.medications +
         (files.map
            (fun f => prefixTypeCount "MedicationStatement" f.read)).sum⟩
  | [], s => by simp
  | f :: rest, s => by
    rw [List.foldl_cons, processFile_eq, foldl_processFile_eq rest]
    by_cases h : fileSucceeds f <;>
      simp [h, List.countP_cons] <;> omega

theorem countP_add_countP_not (p : α → Bool) (l : List α) :
    l.countP p + l.countP (fun a => !p a) = l.length := by
  induction l with
  | nil => rfl
  | cons x xs ih => by_cases h : p x <;> simp [List.countP_cons, h] <;> omega

theorem scan_perm (dir : List FileCase) :
    (scan dir).Perm (dir.filter (fun f => isJsonFile f.name)) :=
  List.perm_insertionSort nameLe _

theorem scan_length (dir : List FileCase) :
    (scan dir).length = (dir.filter (fun f => isJsonFile f.name)).length :=
  (scan_perm dir).length_eq

theorem upload_directory_eq (dir : List FileCase) :
    upload_directory dir =
      if (scan dir).length = 0 then Except.error "ZeroDivisionError"
      else Except.ok (batchStats dir) := by
  show (match successPerMille ((scan dir).foldl processFile
          ⟨(scan dir).length, 0, 0, 0, 0, 0⟩) with
        | Except.error e => Except.error e
        | Except.ok _ =>
          Except.ok ((scan dir).foldl processFile
            ⟨(scan dir).length, 0, 0, 0, 0, 0⟩)) = _
  rw [foldl_processFile_eq]
  unfold successPerMille batchStats
  by_cases h0 : (scan dir).length = 0 <;>
    simp [h0, foldl_processFile_eq]

theorem scan_sorted (dir : List FileCase) : List.Sorted nameLe (scan dir) :=
  @List.sorted_insertionSort FileCase nameLe _
    ⟨fun f g => lexLe_total f.name.data g.name.data⟩
    ⟨fun f g h => lexLe_trans f.name.data g.name.data h.name.data⟩ _

/-! ### Claims -/

/-- Claim C1: for every batch run of `upload_directory` that completes and
returns its statistics, `total` equals `successful + failed`, and `total`
equals the number of `*.json` files found in the directory at scan
time. -/
theorem c1_stats_invariant (dir : List FileCase) (s : Stats)
    (h : upload_directory dir = Except.ok s) :
    s.total = s.successful + s.failed ∧
    s.total = (dir.filter (fun f => isJsonFile f.name)).length := by
  rw [upload_directory_eq] at h
  by_cases h0 : (scan dir).length = 0
  · simp [h0] at h
  · simp [h0] at h
    subst h
    unfold batchStats
    rw [foldl_processFile_eq]
    refine ⟨?_, ?_⟩
    · simp [countP_add_countP_not]
    · simpa using (scan_length dir)

/-- Witness for C1 at a two-file directory, one upload succeeding and one
file unreadable. -/
theorem c1_witness :
    (⟨2, 1, 1, 0, 0, 0⟩ : Stats).total =
        (⟨2, 1, 1, 0, 0, 0⟩ : Stats).successful +
          (⟨2, 1, 1, 0, 0, 0⟩ : Stats).failed ∧
    (⟨2, 1, 1, 0, 0, 0⟩ : Stats).total =
      ([wFileOk, wFileBad].filter (fun f => isJsonFile f.name)).length :=
  c1_stats_invariant [wFileOk, wFileBad] ⟨2, 1, 1, 0, 0, 0⟩ rfl

/-- Claim C2 counterexample: in `exDir` the single file has one malformed
entry followed by one Patient entry; the run completes with the `patients`
counter at 0, while the per-spec count of Patient entries across all files
is 1, so the counters do not equal the count of matching entries when a
malformed entry precedes well-formed ones. -/
theorem c2_counterexample :
    upload_directory exDir = Except.ok ⟨1, 1, 0, 0, 0, 0⟩ ∧
    (⟨1, 1, 0, 0, 0, 0⟩ : Stats).patients ≠ specTypeCount "Patient" exDir :=
  ⟨rfl, by decide⟩

/-- Claim C2 (amended): for every completed batch run, each resource
counter equals, summed over the scanned files, the number of matching
entries in the longest well-formed prefix of the entry list of the file:
counting a file stops at its first malformed entry (earlier entries stay
counted, later ones are never counted), and the counters depend only on
the file contents, never on the upload outcomes. -/
theorem c2_amended (dir : List FileCase) (s : Stats)
    (h : upload_directory dir = Except.ok s) :
    s.patients =
      ((scan dir).map (fun f => prefixTypeCount "Patient" f.read)).sum ∧
    s.observations =
      ((scan dir).map (fun f => prefixTypeCount "Observation" f.read)).sum ∧
    s.medications =
      ((scan dir).map
        (fun f => prefixTypeCount "MedicationStatement" f.read)).sum := by
  rw [upload_directory_eq] at h
  by_cases h0 : (scan dir).length = 0
  · simp [h0] at h
  · simp [h0] at h
    subst h
    unfold batchStats
    rw [foldl_processFile_eq]
    simp

/-- Witness for the amended C2 at the concrete directory `exDir`. -/
theorem c2_witness :
    (⟨1, 1, 0, 0, 0, 0⟩ : Stats).patients =
      ((scan exDir).map (fun f => prefixTypeCount "Patient" f.read)).sum ∧
    (⟨1, 1, 0, 0, 0, 0⟩ : Stats).observations =
      ((scan exDir).map (fun f => prefixTypeCount "Observation" f.read)).sum ∧
    (⟨1, 1, 0, 0, 0, 0⟩ : Stats).medications =
      ((scan exDir).map
        (fun f => prefixTypeCount "MedicationStatement" f.read)).sum :=
  c2_amended exDir ⟨1, 1, 0, 0, 0, 0⟩ rfl

/-- Claim C3: on an empty input directory the claim asks for `total = 0`
statistics and no division by zero; the code instead evaluates
`successful / total * 100` with `total = 0`, raises `ZeroDivisionError`
inside the final summary, and never returns the statistics. -/
theorem c3_empty_dir_zero_division :
    upload_directory [] = Except.error "ZeroDivisionError" ∧
    successPerMille ⟨0, 0, 0, 0, 0, 0⟩ = Except.error "ZeroDivisionError" :=
  ⟨rfl, rfl⟩

/-- Claim C4 counterexample: a response with HTTP status 200 whose body is
not valid JSON makes `upload_bundle` return a failure, so success is not
returned exactly when the status is 200 or 201. -/
theorem c4_counterexample :
    (upload_bundle
        (HttpResult.response 200 "not json"
          (Except.error "Expecting value"))).fst = none :=
  rfl

/-- Claim C4 (amended): `upload_bundle` returns the parsed response body
exactly when the HTTP status is 200 or 201 and the body parses as JSON;
for every other status it returns a failure and prints the status code and
the response body truncated to 500 characters; a transport-level failure
after retries are exhausted also returns a failure; and a failure never
aborts the batch: whenever the scan finds at least one file the batch
still completes and returns statistics. -/
theorem c4_amended :
    (∀ r : HttpResult,
        (upload_bundle r).fst.isSome = true ↔
          ∃ status body j,
            r = HttpResult.response status body (Except.ok j) ∧
              (status = 200 ∨ status = 201)) ∧
    (∀ status body parsed, ¬(status = 200 ∨ status = 201) →
        (upload_bundle (HttpResult.response status body parsed)).fst = none ∧
        (upload_bundle (HttpResult.response status body parsed)).snd =
          ["  Upload failed: " ++ toString status,
           "  Response: " ++ body.take 500]) ∧
    (∀ msg, (upload_bundle (HttpResult.exc msg)).fst = none) ∧
    (∀ dir : List FileCase, (scan dir).length ≠ 0 →
        ∃ s, upload_directory dir = Except.ok s) := by
  refine ⟨?_, ?_, fun _ => rfl, ?_⟩
  · intro r
    match r with
    | HttpResult.exc msg => simp [upload_bundle]
    | HttpResult.response status body parsed =>
      by_cases hs : status = 200 ∨ status = 201
      · match parsed with
        | Except.ok j => simp [upload_bundle, hs]
        | Except.error e => simp [upload_bundle, hs]
      · match parsed with
        | Except.ok j => simp [upload_bundle, hs]
        | Except.error e => simp [upload_bundle, hs]
  · intro status body parsed hs
    match parsed with
    | Except.ok j => exact ⟨by simp [upload_bundle, hs], by simp [upload_bundle, hs]⟩
    | Except.error e => exact ⟨by simp [upload_bundle, hs], by simp [upload_bundle, hs]⟩
  · intro dir h0
    rw [upload_directory_eq]
    simp [h0]

/-- Witness for the amended C4: a 404 response and the nonempty directory
`exDir`. -/
theorem c4_witness :
    ((upload_bundle
        (HttpResult.response 404 "oops" (Except.error "bad"))).fst = none ∧
     (upload_bundle
        (HttpResult.response 404 "oops" (Except.error "bad"))).snd =
       ["  Upload failed: " ++ toString 404,
        "  Response: " ++ "oops".take 500]) ∧
    ∃ s, upload_directory exDir = Except.ok s :=
  ⟨c4_amended.2.1 404 "oops" (Except.error "bad") (by decide),
   c4_amended.2.2.2 exDir (by decide)⟩

/-- Claim C5: `test_connection` and `search_patients` never raise: every
exception arm of the session call, the parse exception raised by
`response.json()` inside the guarded block, and the `AttributeError`
raised at the server line of `test_connection` when the parsed metadata
is not a dict or its `software` value is not a dict, is caught and
converted to the negative result (`false`, respectively `none`). -/
theorem c5_no_raise :
    (∀ msg, test_connection (HttpResult.exc msg) = false) ∧
    (∀ msg params, search_patients params (HttpResult.exc msg) = none) ∧
    (∀ status body e,
        test_connection
          (HttpResult.response status body (Except.error e)) = false) ∧
    (∀ status body e params,
        search_patients params
          (HttpResult.response status body (Except.error e)) = none) ∧
    (∀ body j, j.isObj = false →
        test_connection
          (HttpResult.response 200 body (Except.ok j)) = false) ∧
    (∀ body fields v, lookupField fields "software" = some v →
        v.isObj = false →
        test_connection
          (HttpResult.response 200 body
            (Except.ok (Json.obj fields))) = false) := by
  refine ⟨fun _ => rfl, fun _ _ => rfl, ?_, ?_, ?_, ?_⟩
  · intro status body e
    by_cases h : status = 200 <;> simp [test_connection, h]
  · intro status body e params
    by_cases h : status = 200 <;> simp [search_patients, h]
  · intro body j h
    cases j <;> simp_all [test_connection, Json.isObj]
  · intro body fields v hlk h
    cases v <;> simp_all [test_connection, Json.isObj]

/-- Witness for C5: a 200 response whose body parses to a list, and one
whose `software` value is a string, both classified as failures. -/
theorem c5_witness :
    test_connection
      (HttpResult.response 200 "listbody"
        (Except.ok (Json.arr []))) = false ∧
    test_connection
      (HttpResult.response 200 "objbody"
        (Except.ok (Json.obj [("software", Json.str "HAPI")]))) = false :=
  ⟨c5_no_raise.2.2.2.2.1 "listbody" (Json.arr []) rfl,
   c5_no_raise.2.2.2.2.2 "objbody" [("software", Json.str "HAPI")]
     (Json.str "HAPI") rfl rfl⟩

/-- Claim C6: when a required environment variable is unset, `main` stops
at the truthiness check of the credentials and attempts no HTTP request at
all. -/
theorem c6_missing_env (env : Env) (w : World)
    (h : env.hostname = none ∨ env.clientId = none ∨
      env.clientSecret = none) :
    main_run env w = [] := by
  obtain ⟨ho, hc, hs⟩ := env
  cases ho <;> cases hc <;> cases hs <;> simp_all [main_run]

/-- Witness for C6: unset hostname. -/
theorem c6_witness :
    main_run ⟨none, some "id", some "secret"⟩ w0 = [] :=
  c6_missing_env ⟨none, some "id", some "secret"⟩ w0 (Or.inl rfl)

/-- Claim C7: the batch processes exactly the files of the directory whose
name matches the `.json` extension, in lexicographically sorted name
order, and the processing order is determined by the directory content
alone: any enumeration order of the same files scans to the same name
sequence. -/
theorem c7_scan_order (dir : List FileCase) :
    (scan dir).Perm (dir.filter (fun f => isJsonFile f.name)) ∧
    List.Sorted strLe ((scan dir).map FileCase.name) ∧
    (∀ dir2, dir.Perm dir2 →
        (scan dir).map FileCase.name = (scan dir2).map FileCase.name) := by
  have hsorted : ∀ d : List FileCase,
      List.Sorted strLe ((scan d).map FileCase.name) := fun d =>
    List.Pairwise.map FileCase.name (fun _ _ hab => hab) (scan_sorted d)
  refine ⟨scan_perm dir, hsorted dir, ?_⟩
  intro dir2 hperm
  have hp : ((scan dir).map FileCase.name).Perm
      ((scan dir2).map FileCase.name) :=
    (((scan_perm dir).trans
        (hperm.filter (fun f => isJsonFile f.name))).trans
      (scan_perm dir2).symm).map FileCase.name
  exact @List.eq_of_perm_of_sorted String strLe
    ⟨fun a b h1 h2 => by
      cases a; cases b
      exact congrArg String.mk (lexLe_antisymm _ _ h1 h2)⟩
    _ _ hp (hsorted dir) (hsorted dir2)

/-- Witness for C7: two files listed in both enumeration orders scan to
the same sorted name sequence. -/
theorem c7_witness :
    (scan [wf1, wf2]).map FileCase.name =
      (scan [wf2, wf1]).map FileCase.name :=
  (c7_scan_order [wf1, wf2]).2.2 [wf2, wf1] (List.Perm.swap wf2 wf1 [])

/-- Claim C8: a file whose content is not valid JSON still goes through the
upload path (`upload_bundle_file`), where the read fails again and yields
a per-file failure: the file is counted as failed exactly once, every
other counter is untouched, and the loop continues with the remaining
files. -/
theorem c8_invalid_json (f : FileCase) (e : String) (s : Stats)
    (rest : List FileCase) (h : f.read = Except.error e) :
    upload_bundle_file f.read f.resp = false ∧
    processFile s f =
      ⟨s.total, s.successful, s.failed + 1, s.patients, s.observations,
       s.medications⟩ ∧
    (f :: rest).foldl processFile s =
      rest.foldl processFile
        ⟨s.total, s.successful, s.failed + 1, s.patients, s.observations,
         s.medications⟩ := by
  have h1 : upload_bundle_file f.read f.resp = false := by
    rw [h]
    rfl
  have h2 : processFile s f =
      ⟨s.total, s.successful, s.failed + 1, s.patients, s.observations,
       s.medications⟩ := by
    unfold processFile
    rw [h]
    simp [countBundle, upload_bundle_file]
  exact ⟨h1, h2, by rw [List.foldl_cons, h2]⟩

/-- Witness for C8: an invalid-JSON file at concrete prior statistics. -/
theorem c8_witness :
    upload_bundle_file wf3.read wf3.resp = false ∧
    processFile ⟨3, 1, 0, 2, 0, 0⟩ wf3 = ⟨3, 1, 1, 2, 0, 0⟩ ∧
    ([wf3] : List FileCase).foldl processFile ⟨3, 1, 0, 2, 0, 0⟩ =
      ([] : List FileCase).foldl processFile ⟨3, 1, 1, 2, 0, 0⟩ :=
  c8_invalid_json wf3 "Expecting value" ⟨3, 1, 0, 2, 0, 0⟩ [] rfl

/-- Claim C9: a response with status 200 or 201 whose body is not valid
JSON makes `upload_bundle` return a failure: `response.json()` raises
inside the guarded block and the `except` arm returns `None`. -/
theorem c9_ok_status_bad_body (status : Nat) (body e : String)
    (h : status = 200 ∨ status = 201) :
    (upload_bundle
        (HttpResult.response status body (Except.error e))).fst = none := by
  simp [upload_bundle, h]

/-- Witness for C9 at status 200. -/
theorem c9_witness :
    (upload_bundle
        (HttpResult.response 200 "html page"
          (Except.error "Expecting value"))).fst = none :=
  c9_ok_status_bad_body 200 "html page" "Expecting value" (Or.inl rfl)

/-- Claim C10: a required environment variable set to the empty string
fails the same `all([...])` truthiness check as a missing one, so `main`
returns before constructing the uploader and attempts no HTTP request. -/
theorem c10_empty_env (env : Env) (w : World)
    (h : env.hostname = some "" ∨ env.clientId = some "" ∨
      env.clientSecret = some "") :
    main_run env w = [] := by
  obtain ⟨ho, hc, hs⟩ := env
  cases ho <;> cases hc <;> cases hs <;> simp_all [main_run]

/-- Witness for C10: empty hostname. -/
theorem c10_witness :
    main_run ⟨some "", some "id", some "secret"⟩ w0 = [] :=
  c10_empty_env ⟨some "", some "id", some "secret"⟩ w0 (Or.inl rfl)
